import Mathlib

/-!
Shallow embedding of the polygon-MCP stock server (src/index.ts, src/types.ts).

The adapter exposes two capability groups over an MCP-style protocol:
resources (list + read) and tools (list + call).  Each request handler is
embedded as a pure function of the incoming request, an upstream oracle
`upstream : String → UpstreamResult` mapping the endpoint path of an HTTP GET
to its outcome, and the current wall-clock time `now : String` standing for
`new Date().toISOString()`.  Every handler also returns the list of endpoint
paths it requested upstream, so "zero upstream calls" and "exactly one
upstream call" are provable statements.

JS numbers are modelled as `Int` (the handlers copy them verbatim and never
do arithmetic on them), untyped argument values as a `JsonValue` inductive,
and the fallible upstream call as the three-way `UpstreamResult`.
-/

namespace PolygonMCP

/-- Untyped JSON-ish runtime value used for tool-call arguments
(`request.params.arguments` is untyped at the boundary). -/
inductive JsonValue where
  | null : JsonValue
  | undef : JsonValue
  | bool (b : Bool) : JsonValue
  | num (n : Int) : JsonValue
  | str (s : String) : JsonValue
  | arr (elems : List JsonValue) : JsonValue
  | obj (fields : List (String × JsonValue)) : JsonValue

/-- Property lookup `args[k]`: only plain objects carry the named fields we
care about; absent keys read as `undefined` (here `none`). -/
def getField : JsonValue → String → Option JsonValue
  | JsonValue.obj fields, k => (fields.find? (fun p => p.1 == k)).map (fun p => p.2)
  | _, _ => none

/-- Models the JS conjunct `typeof args === "object" && args !== null`:
true exactly for plain objects and arrays. -/
def isObjectNonNull : JsonValue → Bool
  | JsonValue.obj _ => true
  | JsonValue.arr _ => true
  | _ => false

/-- Models `"symbol" in args` (false on every non-object, as is the
corresponding lookup). -/
def hasField (args : JsonValue) (k : String) : Bool :=
  (getField args k).isSome

/-- src/types.ts `isValidStockPriceArgs`: `typeof args === "object" &&
args !== null && "symbol" in args && typeof args.symbol === "string" &&
(args.date === undefined || typeof args.date === "string")`. -/
def isValidStockPriceArgs (args : JsonValue) : Bool :=
  isObjectNonNull args &&
  hasField args "symbol" &&
  (match getField args "symbol" with
   | some (JsonValue.str _) => true
   | _ => false) &&
  (match getField args "date" with
   | none => true
   | some (JsonValue.str _) => true
   | some _ => false)

/-- src/types.ts `PolygonStockResponse`.  `from` is declared `string` in the
interface but the runtime value comes from an unchecked cast of the HTTP
body, so it is modelled as `Option String` (`none` = field absent). -/
structure PolygonStockResponse where
  status : String
  «from» : Option String
  symbol : String
  «open» : Int
  high : Int
  low : Int
  close : Int
  volume : Int
  afterHours : Int
  preMarket : Int
  deriving DecidableEq, Repr

/-- src/types.ts `StockData`. -/
structure StockData where
  symbol : String
  price : Int
  «open» : Int
  high : Int
  low : Int
  volume : Int
  timestamp : String
  deriving DecidableEq, Repr

/-- An axios transport-level error: `message` is the error's own message and
`responseMessage` models `error.response?.data.message` (provider-supplied
message field, when present). -/
structure AxiosError where
  responseMessage : Option String
  message : String
  deriving DecidableEq, Repr

/-- Outcome of one upstream `axiosInstance.get`: a parsed body, an axios
transport error, or some other thrown exception. -/
inductive UpstreamResult where
  | ok (resp : PolygonStockResponse) : UpstreamResult
  | axiosError (e : AxiosError) : UpstreamResult
  | thrown (msg : String) : UpstreamResult
  deriving DecidableEq, Repr

/-- The `API_CONFIG` constant of src/index.ts. -/
structure Endpoints where
  LAST_TRADE : String
  DAILY_OPEN_CLOSE : String
  deriving DecidableEq, Repr

structure ApiConfig where
  BASE_URL : String
  DEFAULT_SYMBOL : String
  ENDPOINTS : Endpoints
  deriving DecidableEq, Repr

def API_CONFIG : ApiConfig :=
  { BASE_URL := "https://api.polygon.io/v1"
    DEFAULT_SYMBOL := "AAPL"
    ENDPOINTS :=
      { LAST_TRADE := "last/stocks"
        DAILY_OPEN_CLOSE := "open-close" } }

/-- The error codes this adapter uses (`ErrorCode` of the MCP SDK). -/
inductive McpErrorCode where
  | InvalidRequest : McpErrorCode
  | InternalError : McpErrorCode
  | MethodNotFound : McpErrorCode
  | InvalidParams : McpErrorCode
  deriving DecidableEq, Repr

/-- JS `response.data.from || new Date().toISOString()`: `||` picks the
left string unless it is falsy (absent or empty). -/
def jsStringOr (v : Option String) (d : String) : String :=
  match v with
  | some s => if s = "" then d else s
  | none => d

/-- The `StockData` literal built by the tool handler (src/index.ts lines
191-199): `timestamp := response.data.from || new Date().toISOString()`. -/
def toolStockData (resp : PolygonStockResponse) (now : String) : StockData :=
  { symbol := resp.symbol
    price := resp.close
    «open» := resp.«open»
    high := resp.high
    low := resp.low
    volume := resp.volume
    timestamp := jsStringOr resp.«from» now }

/-- The `StockData` literal built by the read-resource handler (src/index.ts
lines 108-116): `timestamp := new Date().toISOString()`. -/
def resourceStockData (resp : PolygonStockResponse) (now : String) : StockData :=
  { symbol := resp.symbol
    price := resp.close
    «open» := resp.«open»
    high := resp.high
    low := resp.low
    volume := resp.volume
    timestamp := now }

def quoteMark : String := String.singleton (Char.ofNat 34)

def backslashStr : String := String.singleton (Char.ofNat 92)

/-- Minimal JSON string escaping (quote and backslash), standing for the
escaping `JSON.stringify` applies to string values. -/
def jsonEscape (s : String) : String :=
  s.foldl
    (fun acc c =>
      if c.toNat = 34 then acc ++ backslashStr ++ quoteMark
      else if c.toNat = 92 then acc ++ backslashStr ++ backslashStr
      else acc.push c)
    ""

def jsonStr (s : String) : String :=
  quoteMark ++ jsonEscape s ++ quoteMark

/-- `JSON.stringify(stockData, null, 2)`: the pretty-printed JSON text of a
`StockData`, with two-space indentation. -/
def stringifyStockData (sd : StockData) : String :=
  "\x7b\n  " ++ jsonStr "symbol" ++ ": " ++ jsonStr sd.symbol ++
  ",\n  " ++ jsonStr "price" ++ ": " ++ toString sd.price ++
  ",\n  " ++ jsonStr "open" ++ ": " ++ toString sd.«open» ++
  ",\n  " ++ jsonStr "high" ++ ": " ++ toString sd.high ++
  ",\n  " ++ jsonStr "low" ++ ": " ++ toString sd.low ++
  ",\n  " ++ jsonStr "volume" ++ ": " ++ toString sd.volume ++
  ",\n  " ++ jsonStr "timestamp" ++ ": " ++ jsonStr sd.timestamp ++
  "\n\x7d"

/-- One entry of a read-resource reply's `contents`. -/
structure ResourceContent where
  uri : String
  mimeType : String
  text : String
  deriving DecidableEq, Repr

/-- How a read-resource handler run ends: a normal protocol reply, a thrown
`McpError`, or some other exception propagated unmodified. -/
inductive ReadResourceOutcome where
  | ok (contents : List ResourceContent) : ReadResourceOutcome
  | mcpError (code : McpErrorCode) (msg : String) : ReadResourceOutcome
  | thrown (msg : String) : ReadResourceOutcome
  deriving DecidableEq, Repr

/-- The `ReadResourceRequestSchema` handler (src/index.ts lines 92-135).
Returns the outcome together with the list of upstream endpoint paths it
requested. -/
def readResourceHandler (upstream : String → UpstreamResult) (now : String)
    (uri : String) : ReadResourceOutcome × List String :=
  let symbol := API_CONFIG.DEFAULT_SYMBOL
  if uri ≠ "stock://" ++ symbol ++ "/current" then
    (ReadResourceOutcome.mcpError McpErrorCode.InvalidRequest
      ("Unknown resource: " ++ uri), [])
  else
    let endpoint := API_CONFIG.ENDPOINTS.LAST_TRADE ++ "/" ++ symbol
    match upstream endpoint with
    | UpstreamResult.ok resp =>
        let stockData := resourceStockData resp now
        (ReadResourceOutcome.ok
          [{ uri := uri
             mimeType := "application/json"
             text := stringifyStockData stockData }], [endpoint])
    | UpstreamResult.axiosError e =>
        let m := e.responseMessage.getD e.message
        (ReadResourceOutcome.mcpError McpErrorCode.InternalError
          ("Polygon API error: " ++ m), [endpoint])
    | UpstreamResult.thrown m => (ReadResourceOutcome.thrown m, [endpoint])

/-- One entry of a tool-call reply's `content`. -/
structure ToolContent where
  type : String
  text : String
  deriving DecidableEq, Repr

/-- A normal tool-call reply envelope.  The success return of the source has
no `isError` key, which reads as the falsy `undefined`; it is modelled as
`isError := false`. -/
structure CallToolResult where
  content : List ToolContent
  isError : Bool
  deriving DecidableEq, Repr

/-- How a tool-call handler run ends. -/
inductive CallToolOutcome where
  | ok (result : CallToolResult) : CallToolOutcome
  | mcpError (code : McpErrorCode) (msg : String) : CallToolOutcome
  | thrown (msg : String) : CallToolOutcome
  deriving DecidableEq, Repr

/-- An incoming `CallTool` request: tool name plus untyped arguments. -/
structure CallToolRequest where
  name : String
  arguments : JsonValue

/-- `const { symbol } = request.params.arguments` after the shape check
guarantees a string field. -/
def extractSymbol (args : JsonValue) : String :=
  match getField args "symbol" with
  | some (JsonValue.str s) => s
  | _ => ""

/-- `const { date } = request.params.arguments`: `none` when absent. -/
def extractDate (args : JsonValue) : Option String :=
  match getField args "date" with
  | some (JsonValue.str s) => some s
  | _ => none

/-- Endpoint selection of the tool handler (src/index.ts lines 183-187):
`let endpoint = last/stocks/symbol; if (date) endpoint = open-close/symbol/date`.
JS truthiness makes an empty-string `date` keep the last-trade endpoint. -/
def toolEndpoint (symbol : String) (date : Option String) : String :=
  match date with
  | some d =>
      if d = "" then API_CONFIG.ENDPOINTS.LAST_TRADE ++ "/" ++ symbol
      else API_CONFIG.ENDPOINTS.DAILY_OPEN_CLOSE ++ "/" ++ symbol ++ "/" ++ d
  | none => API_CONFIG.ENDPOINTS.LAST_TRADE ++ "/" ++ symbol

/-- The `CallToolRequestSchema` handler (src/index.ts lines 163-220).
Returns the outcome together with the list of upstream endpoint paths it
requested. -/
def callToolHandler (upstream : String → UpstreamResult) (now : String)
    (req : CallToolRequest) : CallToolOutcome × List String :=
  if req.name ≠ "get_stock_price" then
    (CallToolOutcome.mcpError McpErrorCode.MethodNotFound
      ("Unknown tool: " ++ req.name), [])
  else if !isValidStockPriceArgs req.arguments then
    (CallToolOutcome.mcpError McpErrorCode.InvalidParams
      "Invalid stock price arguments", [])
  else
    let symbol := extractSymbol req.arguments
    let date := extractDate req.arguments
    let endpoint := toolEndpoint symbol date
    match upstream endpoint with
    | UpstreamResult.ok resp =>
        let stockData := toolStockData resp now
        (CallToolOutcome.ok
          { content := [{ type := "text", text := stringifyStockData stockData }]
            isError := false }, [endpoint])
    | UpstreamResult.axiosError e =>
        let m := e.responseMessage.getD e.message
        (CallToolOutcome.ok
          { content := [{ type := "text", text := "Polygon API error: " ++ m }]
            isError := true }, [endpoint])
    | UpstreamResult.thrown m => (CallToolOutcome.thrown m, [endpoint])

/-- One property entry of the declared tool input schema. -/
structure SchemaProperty where
  name : String
  type : String
  description : String
  deriving DecidableEq, Repr

structure InputSchema where
  type : String
  properties : List SchemaProperty
  required : List String
  deriving DecidableEq, Repr

structure ToolDecl where
  name : String
  description : String
  inputSchema : InputSchema
  deriving DecidableEq, Repr

/-- The `ListToolsRequestSchema` handler (src/index.ts lines 139-161): a
constant catalog, paired (like the other handlers) with its — empty — list
of upstream requests. -/
def listToolsHandler : List ToolDecl × List String :=
  ([{ name := "get_stock_price"
      description := "Get stock price information for a specific symbol"
      inputSchema :=
        { type := "object"
          properties :=
            [{ name := "symbol"
               type := "string"
               description := "Stock symbol (e.g., AAPL)" },
             { name := "date"
               type := "string"
               description := "Date in YYYY-MM-DD format (optional, defaults to latest)" }]
          required := ["symbol", "date"] } }], [])

/-- A sample upstream reply used by concrete witnesses below. -/
def sampleResp : PolygonStockResponse :=
  { status := "OK"
    «from» := some "2024-01-05"
    symbol := "AAPL"
    «open» := 148
    high := 151
    low := 147
    close := 150
    volume := 1000
    afterHours := 0
    preMarket := 0 }

/-- Unfolding of the tool handler on a validly-shaped request: the name guard
and the shape guard pass, one upstream request is issued to the selected
endpoint, and the outcome is determined by the upstream result. -/
theorem callToolHandler_valid_eq (upstream : String → UpstreamResult) (now : String)
    (args : JsonValue) (h : isValidStockPriceArgs args = true) :
    callToolHandler upstream now { name := "get_stock_price", arguments := args }
      = ((match upstream (toolEndpoint (extractSymbol args) (extractDate args)) with
          | UpstreamResult.ok resp =>
              CallToolOutcome.ok
                { content :=
                    [{ type := "text", text := stringifyStockData (toolStockData resp now) }]
                  isError := false }
          | UpstreamResult.axiosError e =>
              CallToolOutcome.ok
                { content :=
                    [{ type := "text",
                       text := "Polygon API error: " ++ e.responseMessage.getD e.message }]
                  isError := true }
          | UpstreamResult.thrown m => CallToolOutcome.thrown m),
         [toolEndpoint (extractSymbol args) (extractDate args)]) := by
  unfold callToolHandler
  simp [h]
  cases upstream (toolEndpoint (extractSymbol args) (extractDate args)) <;> rfl

/-- Unfolding of the read-resource handler on the one matching URI
`stock://AAPL/current`: the URI guard passes, one upstream request is issued
to `last/stocks/AAPL`, and the outcome is determined by the upstream result. -/
theorem readResourceHandler_match_eq (upstream : String → UpstreamResult) (now : String) :
    readResourceHandler upstream now "stock://AAPL/current"
      = ((match upstream "last/stocks/AAPL" with
          | UpstreamResult.ok resp =>
              ReadResourceOutcome.ok
                [{ uri := "stock://AAPL/current"
                   mimeType := "application/json"
                   text := stringifyStockData (resourceStockData resp now) }]
          | UpstreamResult.axiosError e =>
              ReadResourceOutcome.mcpError McpErrorCode.InternalError
                ("Polygon API error: " ++ e.responseMessage.getD e.message)
          | UpstreamResult.thrown m => ReadResourceOutcome.thrown m),
         ["last/stocks/AAPL"]) := by
  have h1 : ("stock://" ++ API_CONFIG.DEFAULT_SYMBOL ++ "/current" : String)
      = "stock://AAPL/current" := by decide
  have h2 : (API_CONFIG.ENDPOINTS.LAST_TRADE ++ "/" ++ API_CONFIG.DEFAULT_SYMBOL : String)
      = "last/stocks/AAPL" := by decide
  unfold readResourceHandler
  simp [h1, h2]
  cases upstream "last/stocks/AAPL" <;> rfl

/-- Claim C1 counterexample: the claim fails on the read-resource capability.
Even when upstream supplies the non-empty `from` value "2024-01-05", a
successful read-resource lookup builds its `StockData` with the fresh
wall-clock timestamp, not `from`. -/
theorem C1_resource_ignores_from :
    sampleResp.«from» = some "2024-01-05"
    ∧ (readResourceHandler (fun _ => UpstreamResult.ok sampleResp)
         "2025-01-01T00:00:00.000Z" "stock://AAPL/current").1
        = ReadResourceOutcome.ok
            [{ uri := "stock://AAPL/current"
               mimeType := "application/json"
               text := stringifyStockData
                 (resourceStockData sampleResp "2025-01-01T00:00:00.000Z") }]
    ∧ (resourceStockData sampleResp "2025-01-01T00:00:00.000Z").timestamp ≠ "2024-01-05" :=
  ⟨rfl, rfl, by decide⟩

/-- Claim C1, amended: only the tool path prefers upstream `from`: a tool
lookup's `StockData.timestamp` equals `from` when upstream supplies a
non-empty string for it and the fresh wall-clock ISO-8601 timestamp
otherwise, while a read-resource lookup's timestamp is always the fresh
wall-clock timestamp, ignoring `from`. -/
theorem C1_timestamp_mapping (resp : PolygonStockResponse) (now : String) :
    ((resp.«from» = none ∨ resp.«from» = some "") →
      (toolStockData resp now).timestamp = now)
    ∧ (∀ s, resp.«from» = some s → s ≠ "" → (toolStockData resp now).timestamp = s)
    ∧ (resourceStockData resp now).timestamp = now := by
  refine ⟨?_, ?_, rfl⟩
  · rintro (h | h) <;> simp [toolStockData, jsStringOr, h]
  · intro s hs hne
    simp [toolStockData, jsStringOr, hs, hne]

/-- Claim C1 witness: concrete evaluation of the amended mapping. -/
theorem C1_timestamp_mapping_witness :
    (toolStockData sampleResp "2025-01-01T00:00:00.000Z").timestamp = "2024-01-05"
    ∧ (resourceStockData sampleResp "2025-01-01T00:00:00.000Z").timestamp
        = "2025-01-01T00:00:00.000Z" :=
  ⟨(C1_timestamp_mapping sampleResp "2025-01-01T00:00:00.000Z").2.1
     "2024-01-05" rfl (by decide),
   (C1_timestamp_mapping sampleResp "2025-01-01T00:00:00.000Z").2.2⟩

/-- Claim C2 counterexample: arguments with `date` present but equal to the
empty string pass the shape check, yet the (single) upstream request goes to
the last-trade endpoint, not the daily open/close endpoint — JS truthiness,
not presence, selects the endpoint. -/
theorem C2_empty_date_uses_last_trade :
    isValidStockPriceArgs
        (JsonValue.obj [("symbol", JsonValue.str "AAPL"), ("date", JsonValue.str "")]) = true
    ∧ (callToolHandler (fun _ => UpstreamResult.ok sampleResp) "T"
         { name := "get_stock_price"
           arguments :=
             JsonValue.obj [("symbol", JsonValue.str "AAPL"), ("date", JsonValue.str "")] }).2
        = ["last/stocks/AAPL"] :=
  ⟨rfl, rfl⟩

/-- Claim C2, amended: every valid `get_stock_price` invocation issues
exactly one upstream request, whatever the upstream outcome; the request
goes to the daily open/close endpoint keyed by symbol and date when `date`
is present and non-empty (truthy), and to the last-trade endpoint for the
symbol when `date` is absent or the empty string. -/
theorem C2_endpoint_selection (upstream : String → UpstreamResult) (now : String)
    (args : JsonValue) (h : isValidStockPriceArgs args = true) :
    (callToolHandler upstream now { name := "get_stock_price", arguments := args }).2
      = [toolEndpoint (extractSymbol args) (extractDate args)]
    ∧ ((extractDate args = none ∨ extractDate args = some "") →
        toolEndpoint (extractSymbol args) (extractDate args)
          = "last/stocks/" ++ extractSymbol args)
    ∧ (∀ d, extractDate args = some d → d ≠ "" →
        toolEndpoint (extractSymbol args) (extractDate args)
          = "open-close/" ++ extractSymbol args ++ "/" ++ d) := by
  have hlast : (API_CONFIG.ENDPOINTS.LAST_TRADE ++ "/" : String) = "last/stocks/" := by decide
  have hoc : (API_CONFIG.ENDPOINTS.DAILY_OPEN_CLOSE ++ "/" : String) = "open-close/" := by decide
  refine ⟨?_, ?_, ?_⟩
  · rw [callToolHandler_valid_eq upstream now args h]
  · rintro (hd | hd) <;>
      simp [toolEndpoint, hd, ← hlast, String.append_assoc]
  · intro d hd hne
    simp [toolEndpoint, hd, hne, ← hoc, String.append_assoc]

/-- Claim C2 witness: a concrete valid invocation with a non-empty date
issues exactly one request, to `open-close/MSFT/2024-01-05`. -/
theorem C2_endpoint_selection_witness :
    (callToolHandler (fun _ => UpstreamResult.thrown "x") "T"
       { name := "get_stock_price"
         arguments :=
           JsonValue.obj
             [("symbol", JsonValue.str "MSFT"), ("date", JsonValue.str "2024-01-05")] }).2
      = ["open-close/MSFT/2024-01-05"] := by
  have h := C2_endpoint_selection (fun _ => UpstreamResult.thrown "x") "T"
    (JsonValue.obj [("symbol", JsonValue.str "MSFT"), ("date", JsonValue.str "2024-01-05")])
    (by decide)
  rw [h.1]
  rfl

/-- Claim C3: when the upstream call of a valid `get_stock_price` invocation
fails with a transport-level (axios) error, the handler returns normally
with a single text content entry "Polygon API error: " followed by the
provider-supplied message field if present, else the transport error's own
message, and with `isError` set. -/
theorem C3_tool_transport_error (upstream : String → UpstreamResult) (now : String)
    (args : JsonValue) (e : AxiosError)
    (hvalid : isValidStockPriceArgs args = true)
    (hup : upstream (toolEndpoint (extractSymbol args) (extractDate args))
             = UpstreamResult.axiosError e) :
    (callToolHandler upstream now { name := "get_stock_price", arguments := args }).1
      = CallToolOutcome.ok
          { content :=
              [{ type := "text"
                 text := "Polygon API error: " ++ e.responseMessage.getD e.message }]
            isError := true } := by
  rw [callToolHandler_valid_eq upstream now args hvalid, hup]

/-- Claim C3 witness: the spec's scenario — provider body message
"rate limited" yields the text "Polygon API error: rate limited" with the
error flag set, as a normal (non-protocol-error) return. -/
theorem C3_tool_transport_error_witness :
    (callToolHandler
       (fun _ => UpstreamResult.axiosError
         { responseMessage := some "rate limited", message := "Request failed" })
       "T" { name := "get_stock_price"
             arguments := JsonValue.obj [("symbol", JsonValue.str "AAPL")] }).1
      = CallToolOutcome.ok
          { content := [{ type := "text", text := "Polygon API error: rate limited" }]
            isError := true } :=
  C3_tool_transport_error
    (fun _ => UpstreamResult.axiosError
      { responseMessage := some "rate limited", message := "Request failed" })
    "T" (JsonValue.obj [("symbol", JsonValue.str "AAPL")])
    { responseMessage := some "rate limited", message := "Request failed" }
    (by decide) rfl

/-- Claim C4: on both capabilities, `StockData.price` equals the upstream
reply's `close` field exactly, for every integer value including zero and
negative values — the mapping is the identity, with no clamping or
transformation. -/
theorem C4_price_is_close (resp : PolygonStockResponse) (now : String) :
    (toolStockData resp now).price = resp.close
    ∧ (resourceStockData resp now).price = resp.close :=
  ⟨rfl, rfl⟩

/-- Claim C5: a `get_stock_price` invocation whose arguments fail the
`isValidStockPriceArgs` shape check fails with `InvalidParams` and issues
zero upstream calls. -/
theorem C5_invalid_args_rejected (upstream : String → UpstreamResult) (now : String)
    (args : JsonValue) (h : isValidStockPriceArgs args = false) :
    callToolHandler upstream now { name := "get_stock_price", arguments := args }
      = (CallToolOutcome.mcpError McpErrorCode.InvalidParams
          "Invalid stock price arguments", []) := by
  unfold callToolHandler
  simp [h]

/-- Claim C5 witness: arguments missing `symbol` are rejected with
`InvalidParams` and no upstream request. -/
theorem C5_invalid_args_rejected_witness :
    callToolHandler (fun _ => UpstreamResult.ok sampleResp) "T"
      { name := "get_stock_price", arguments := JsonValue.obj [] }
      = (CallToolOutcome.mcpError McpErrorCode.InvalidParams
          "Invalid stock price arguments", []) :=
  C5_invalid_args_rejected (fun _ => UpstreamResult.ok sampleResp) "T"
    (JsonValue.obj []) (by decide)

/-- Claim C6: reading any resource URI other than the exact string
`stock://AAPL/current` fails with `InvalidRequest` (message
"Unknown resource: " plus the URI) and issues zero upstream calls. -/
theorem C6_unknown_uri_rejected (upstream : String → UpstreamResult) (now : String)
    (uri : String) (h : uri ≠ "stock://AAPL/current") :
    readResourceHandler upstream now uri
      = (ReadResourceOutcome.mcpError McpErrorCode.InvalidRequest
          ("Unknown resource: " ++ uri), []) := by
  have h1 : ("stock://" ++ API_CONFIG.DEFAULT_SYMBOL ++ "/current" : String)
      = "stock://AAPL/current" := by decide
  unfold readResourceHandler
  simp [h1, h]

/-- Claim C6 witness: a wildcard-looking URI for another symbol is rejected
with `InvalidRequest` and no upstream request. -/
theorem C6_unknown_uri_rejected_witness :
    readResourceHandler (fun _ => UpstreamResult.ok sampleResp) "T" "stock://MSFT/current"
      = (ReadResourceOutcome.mcpError McpErrorCode.InvalidRequest
          ("Unknown resource: " ++ "stock://MSFT/current"), []) :=
  C6_unknown_uri_rejected (fun _ => UpstreamResult.ok sampleResp) "T"
    "stock://MSFT/current" (by decide)

/-- Claim C7: on the matching URI, an upstream transport-level (axios) error
makes the read-resource handler fail with a protocol-level `InternalError`
whose message carries the provider-supplied message field if present, else
the transport error's own message; any non-transport exception propagates
unmodified. -/
theorem C7_resource_upstream_error (upstream : String → UpstreamResult) (now : String) :
    (∀ e, upstream "last/stocks/AAPL" = UpstreamResult.axiosError e →
      (readResourceHandler upstream now "stock://AAPL/current").1
        = ReadResourceOutcome.mcpError McpErrorCode.InternalError
            ("Polygon API error: " ++ e.responseMessage.getD e.message))
    ∧ (∀ m, upstream "last/stocks/AAPL" = UpstreamResult.thrown m →
      (readResourceHandler upstream now "stock://AAPL/current").1
        = ReadResourceOutcome.thrown m) := by
  constructor
  · intro e he
    rw [readResourceHandler_match_eq upstream now, he]
  · intro m hm
    rw [readResourceHandler_match_eq upstream now, hm]

/-- Claim C7 witness: an axios error with no provider message surfaces as
`InternalError` carrying the transport error's own message. -/
theorem C7_resource_upstream_error_witness :
    (readResourceHandler
       (fun _ => UpstreamResult.axiosError
         { responseMessage := none, message := "socket hang up" })
       "T" "stock://AAPL/current").1
      = ReadResourceOutcome.mcpError McpErrorCode.InternalError
          "Polygon API error: socket hang up" :=
  (C7_resource_upstream_error
    (fun _ => UpstreamResult.axiosError
      { responseMessage := none, message := "socket hang up" }) "T").1
    { responseMessage := none, message := "socket hang up" } rfl

/-- Claim C8 counterexample: the shape check does not require `symbol` to be
non-empty — arguments with `symbol` equal to `""` pass
`isValidStockPriceArgs`, and the call proceeds to issue one upstream request
(to `last/stocks/` with the empty symbol) instead of failing with
`InvalidParams`. -/
theorem C8_empty_symbol_accepted :
    isValidStockPriceArgs (JsonValue.obj [("symbol", JsonValue.str "")]) = true
    ∧ (callToolHandler (fun _ => UpstreamResult.ok sampleResp) "T"
         { name := "get_stock_price"
           arguments := JsonValue.obj [("symbol", JsonValue.str "")] }).2
        = ["last/stocks/"] :=
  ⟨rfl, rfl⟩

/-- Claim C8, amended: `isValidStockPriceArgs` only requires `symbol` to be
present and a string, not non-empty.  A valid invocation whose `symbol` is
the empty string is not rejected: no `McpError` of any code is thrown, and
exactly one upstream request is issued, keyed by the empty symbol. -/
theorem C8_empty_symbol_proceeds (upstream : String → UpstreamResult) (now : String)
    (args : JsonValue) (hvalid : isValidStockPriceArgs args = true)
    (hsym : extractSymbol args = "") :
    (callToolHandler upstream now { name := "get_stock_price", arguments := args }).2
      = [toolEndpoint "" (extractDate args)]
    ∧ ∀ c m, (callToolHandler upstream now { name := "get_stock_price", arguments := args }).1
        ≠ CallToolOutcome.mcpError c m := by
  constructor
  · rw [callToolHandler_valid_eq upstream now args hvalid, hsym]
  · intro c m
    rw [callToolHandler_valid_eq upstream now args hvalid]
    cases upstream (toolEndpoint (extractSymbol args) (extractDate args)) <;> simp

/-- Claim C8 witness: the empty-symbol invocation issues its single upstream
request. -/
theorem C8_empty_symbol_proceeds_witness :
    (callToolHandler (fun _ => UpstreamResult.ok sampleResp) "T"
       { name := "get_stock_price"
         arguments := JsonValue.obj [("symbol", JsonValue.str "")] }).2
      = [toolEndpoint "" none] :=
  (C8_empty_symbol_proceeds (fun _ => UpstreamResult.ok sampleResp) "T"
    (JsonValue.obj [("symbol", JsonValue.str "")]) (by decide) (by decide)).1

/-- Claim C9: the list-tools capability returns the fixed single-tool
catalog — tool name `get_stock_price`, a description string, an input schema
of type "object" declaring exactly the two string properties `symbol` and
`date`, with both listed in the schema's `required` array — and issues no
upstream request. -/
theorem C9_list_tools_catalog :
    listToolsHandler.2 = []
    ∧ listToolsHandler.1.map ToolDecl.name = ["get_stock_price"]
    ∧ listToolsHandler.1.map (fun t => t.description)
        = ["Get stock price information for a specific symbol"]
    ∧ listToolsHandler.1.map (fun t => t.inputSchema.type) = ["object"]
    ∧ listToolsHandler.1.map
        (fun t => t.inputSchema.properties.map (fun p => (p.name, p.type)))
        = [[("symbol", "string"), ("date", "string")]]
    ∧ listToolsHandler.1.map (fun t => t.inputSchema.required) = [["symbol", "date"]] :=
  ⟨rfl, rfl, rfl, rfl, rfl, rfl⟩

/-- Claim C10: for any one upstream reply, the `StockData` built by the
read-resource handler and the one built by the tool handler agree on every
field except possibly `timestamp`: `symbol`, `price`, `open`, `high`, `low`
and `volume` come from identical mappings. -/
theorem C10_paths_agree (resp : PolygonStockResponse) (now1 now2 : String) :
    (resourceStockData resp now1).symbol = (toolStockData resp now2).symbol
    ∧ (resourceStockData resp now1).price = (toolStockData resp now2).price
    ∧ (resourceStockData resp now1).«open» = (toolStockData resp now2).«open»
    ∧ (resourceStockData resp now1).high = (toolStockData resp now2).high
    ∧ (resourceStockData resp now1).low = (toolStockData resp now2).low
    ∧ (resourceStockData resp now1).volume = (toolStockData resp now2).volume :=
  ⟨rfl, rfl, rfl, rfl, rfl, rfl⟩

end PolygonMCP
